import Mathlib

/-!
Verification of the Push task execution daemon (the daemon script of the
push-claude-plugin repository) against its natural-language specification.

The daemon is shallowly embedded: the mutable daemon state (the map of
running tasks) becomes an explicit state value, and every externally
visible effect (signals sent to children, backend PATCH requests, git
commands, file writes, process exit) becomes a constructor of an explicit
Action trace. External conditions (filesystem existence, git command
success, spawn results, the value an atomic-claim request resolves to)
are supplied by an environment record. Pure helpers (stuck-pattern
matching, retry backoff, reason-string building) are translated directly
from the source. Log lines and desktop notifications are pure local
observability and are not modelled as actions.
-/

namespace PushDaemon

/-- Character-list test: the second list is a leading segment of the first.
Used to realize the JavaScript String.includes used by the daemon. -/
def startsWithChars : List Char → List Char → Bool
  | _, [] => true
  | [], _ :: _ => false
  | c :: cs, p :: ps => c == p && startsWithChars cs ps

/-- Occurrence of the second character list inside the first, at any position. -/
def hasSubstrChars : List Char → List Char → Bool
  | [], pat => pat.isEmpty
  | c :: cs, pat => startsWithChars (c :: cs) pat || hasSubstrChars cs pat

/-- Model of the JavaScript s.includes(pat). -/
def jsIncludes (s pat : String) : Bool :=
  hasSubstrChars s.data pat.data

/-- Model of the JavaScript s.toLowerCase() (ASCII lowering, as used on the
ASCII pattern lists of the daemon). -/
def jsToLowerCase (s : String) : String :=
  String.mk (s.data.map Char.toLower)

/-- Split of a character list at every occurrence of a separator character;
realizes the JavaScript split on a one-character separator. -/
def jsSplitChar (sep : Char) : List Char → List (List Char)
  | [] => [[]]
  | c :: cs =>
    let rest := jsSplitChar sep cs
    if c == sep then [] :: rest
    else
      match rest with
      | [] => [[c]]
      | r :: rs => (c :: r) :: rs

/-- Joining of character lists with a separator character between parts. -/
def joinWithChar (sep : Char) : List (List Char) → List Char
  | [] => []
  | [x] => x
  | x :: y :: rest => x ++ sep :: joinWithChar sep (y :: rest)

/-- Whether a line is blank, i.e. its JavaScript trim is empty. -/
def lineIsBlank (line : String) : Bool :=
  line.data.all (fun c => c == ' ' || c == '\t' || c == '\n' || c == '\r')

-- ==================== Configuration constants (from the source) ====================

def MAX_CONCURRENT_TASKS : Nat := 5
def TASK_TIMEOUT_MS : Nat := 3600000

def RETRY_MAX_ATTEMPTS : Nat := 3
def RETRY_INITIAL_DELAY : Nat := 2000
def RETRY_MAX_DELAY : Nat := 30000
def RETRY_BACKOFF_FACTOR : Nat := 2

/-- Stuck patterns that indicate the agent is waiting for input (from the source). -/
def STUCK_PATTERNS : List String :=
  ["waiting for permission",
   "approve this action",
   "permission required",
   "plan ready for approval",
   "waiting for user",
   "enter plan mode",
   "press enter to continue",
   "y/n",
   "[Y/n]",
   "confirm:"]

/-- Retryable error patterns (from the source). -/
def RETRYABLE_ERRORS : List String :=
  ["timeout", "connection refused", "connection reset",
   "network is unreachable", "temporary failure", "rate limit",
   "429", "502", "503", "504"]

/-- From the source: an error is retryable when its lowered string form
contains one of the RETRYABLE_ERRORS patterns. -/
def isRetryableError (error : String) : Bool :=
  RETRYABLE_ERRORS.any (fun pattern =>
    jsIncludes (jsToLowerCase error) (jsToLowerCase pattern))

/-- The retryable set exactly as the specification sentence words it
(it writes the pattern as network unreachable, where the source has
network is unreachable). Declared only to compare the claim wording with
the source behaviour. -/
def specRetryablePatterns : List String :=
  ["timeout", "connection refused", "connection reset",
   "network unreachable", "temporary failure", "rate limit",
   "429", "502", "503", "504"]

/-- Matching against the retryable set as worded by the specification. -/
def specMatchesRetryable (error : String) : Bool :=
  specRetryablePatterns.any (fun pattern =>
    jsIncludes (jsToLowerCase error) (jsToLowerCase pattern))

-- ==================== Backend request retry loop ====================

/-- One run of the attempt loop of apiRequest. The argument outcome gives,
for each attempt number (starting at 1), either the response the fetch
resolved to or the error string it threw. Returns the final result
together with the list of backoff delays slept (in milliseconds), in
order. The fuel argument equals maxAttempts at the top call, so it never
reaches 0 before the attempt counter passes maxAttempts. -/
def apiRequestGo {α : Type} (outcome : Nat → Except String α) (retryFlag : Bool)
    (maxAttempts : Nat) : Nat → Nat → Nat → Except String α × List Nat
  | 0, _, _ => (Except.error "", [])
  | fuel + 1, attempt, delay =>
    match outcome attempt with
    | Except.ok r => (Except.ok r, [])
    | Except.error e =>
      if (attempt != maxAttempts) && retryFlag && isRetryableError e then
        let rest := apiRequestGo outcome retryFlag maxAttempts fuel (attempt + 1)
          (min (delay * RETRY_BACKOFF_FACTOR) RETRY_MAX_DELAY)
        (rest.1, delay :: rest.2)
      else (Except.error e, [])

/-- Model of apiRequest: up to RETRY_MAX_ATTEMPTS attempts when retryFlag is
set, a single attempt otherwise; the per-attempt network outcome is the
oracle outcome. -/
def apiRequest {α : Type} (outcome : Nat → Except String α) (retryFlag : Bool) :
    Except String α × List Nat :=
  let maxAttempts := if retryFlag then RETRY_MAX_ATTEMPTS else 1
  apiRequestGo outcome retryFlag maxAttempts maxAttempts 1 RETRY_INITIAL_DELAY

example : isRetryableError "Connection Refused by host" = true := by decide
example : isRetryableError "network unreachable" = false := by decide
example : specMatchesRetryable "network unreachable" = true := by decide
example : (apiRequest (fun _ => (Except.error "timeout" : Except String Nat)) true).2 = [2000, 4000] := by decide
example : (apiRequest (fun _ => (Except.error "no api key" : Except String Nat)) true).2 = [] := by decide

-- ==================== Visible effects of the daemon ====================

/-- The status file and PID file names (paths are rooted in the state
directory; the constant suffix is what the theorems depend on). -/
def STATUS_FILE : String := "daemon_status.json"

def PID_FILE : String := "daemon.pid"

/-- One externally visible effect of the daemon. fsWrite carries, besides
the path, the value of the running field when the written payload is a
status snapshot (none for other payloads such as the PID file). -/
inductive Action where
  | kill (pid : Nat) (signal : String)
  | sleep (ms : Nat)
  | statusUpdate (displayNumber : Nat) (status : String)
      (eventType : Option String) (errorMsg : Option String)
  | gitRun (cwd : String) (cmd : String)
  | fsWrite (path : String) (runningField : Option Bool)
  | fsRename (src : String) (dst : String)
  | fsUnlink (path : String)
  | setPhase (displayNumber : Nat) (phase : String) (detail : String)
  | exitProcess (code : Nat)
deriving DecidableEq, Repr

/-- From the source (updateTaskStatus): when no explicit event is passed,
an execution event is auto-generated from the status. -/
def autoEventType (status : String) : Option String :=
  if status == "running" then some "started"
  else if status == "session_finished" then some "session_finished"
  else if status == "failed" then some "failed"
  else none

/-- The backend PATCH issued by updateTaskStatus, as an action: the event
type is the explicit one when given, else the auto-generated one. -/
def updateTaskStatusAct (displayNumber : Nat) (status : String)
    (explicitEvent : Option String) (errorMsg : Option String) : Action :=
  Action.statusUpdate displayNumber status
    (match explicitEvent with
     | some e => some e
     | none => autoEventType status)
    errorMsg

/-- From the source (updateStatusFile): the status snapshot is written to a
temp file and renamed over the status file; the snapshot of a live daemon
has running set to true. -/
def updateStatusFileActs : List Action :=
  [Action.fsWrite (STATUS_FILE ++ ".tmp") (some true),
   Action.fsRename (STATUS_FILE ++ ".tmp") STATUS_FILE]

-- ==================== State and environment ====================

/-- One entry of the in-memory runningTasks map: the display number keys
the map, startTime is the spawn instant, pid the child process id. -/
structure RunningTask where
  displayNumber : Nat
  startTime : Nat
  pid : Nat
deriving DecidableEq, Repr

/-- The daemon state relevant to the claims: the runningTasks map, kept as
a list in insertion order (its keys are the display numbers). -/
structure DaemonState where
  runningTasks : List RunningTask
deriving DecidableEq, Repr

/-- External conditions of one scheduler moment: the persisted machine id,
the project registry, filesystem existence, the success of the two git
worktree add forms, the spawn result (pid, or the message of a
synchronously thrown error), the boolean the un-awaited claim request
eventually resolves to, the clock, and the working directory. -/
structure DaemonEnv where
  machineId : Option String
  projectPathOf : String → Option String
  pathExists : String → Bool
  wtAddNewOk : Nat → Bool
  wtAddExistingOk : Nat → Bool
  spawnResult : Nat → Except String Nat
  claimResolution : Nat → Bool
  clockNow : Nat
  cwd : String

-- ==================== Worktree naming and management ====================

/-- Model of path.dirname for slash-separated multi-component paths. -/
def dirname (p : String) : String :=
  let parts := jsSplitChar '/' p.data
  if parts.length ≤ 1 then "." else String.mk (joinWithChar '/' parts.dropLast)

/-- From the source (getWorktreeSuffix): the suffix comes from the machine
id (up to 8 characters of its last hyphen-separated part), or local. -/
def getWorktreeSuffix (machineId : Option String) : String :=
  match machineId with
  | some mid =>
    let parts := jsSplitChar '-' mid.data
    if 1 < parts.length then String.mk ((parts.reverse.headD []).take 8)
    else String.mk (mid.data.take 8)
  | none => "local"

/-- From the source (getWorktreePath): the worktree directory is a sibling
of the project path (or of the daemon cwd) named push-{number}-{suffix}. -/
def getWorktreePath (env : DaemonEnv) (displayNumber : Nat)
    (projectPath : Option String) : String :=
  let suffix := getWorktreeSuffix env.machineId
  let worktreeName := "push-" ++ toString displayNumber ++ "-" ++ suffix
  match projectPath with
  | some p => dirname p ++ "/" ++ worktreeName
  | none => env.cwd ++ "/../" ++ worktreeName

/-- From the source (createWorktree): reuse an existing worktree directory
without running git; else run git worktree add with -b, and on failure
retry without -b (the branch may already exist); if both fail, return
none. Returns the resulting path (or none) and the git commands run. -/
def createWorktree (env : DaemonEnv) (displayNumber : Nat)
    (projectPath : Option String) : Option String × List Action :=
  let suffix := getWorktreeSuffix env.machineId
  let branch := "push-" ++ toString displayNumber ++ "-" ++ suffix
  let worktreePath := getWorktreePath env displayNumber projectPath
  if env.pathExists worktreePath then (some worktreePath, [])
  else
    let gitCwd := projectPath.getD env.cwd
    let addNewCmd := "git worktree add \"" ++ worktreePath ++ "\" -b " ++ branch
    let addExistingCmd := "git worktree add \"" ++ worktreePath ++ "\" " ++ branch
    if env.wtAddNewOk displayNumber then
      (some worktreePath, [Action.gitRun gitCwd addNewCmd])
    else if env.wtAddExistingOk displayNumber then
      (some worktreePath,
       [Action.gitRun gitCwd addNewCmd, Action.gitRun gitCwd addExistingCmd])
    else
      (none, [Action.gitRun gitCwd addNewCmd, Action.gitRun gitCwd addExistingCmd])

/-- From the source (cleanupWorktree): nothing when the worktree directory
is absent; else git worktree remove with force. The branch is not
touched. -/
def cleanupWorktree (env : DaemonEnv) (displayNumber : Nat)
    (projectPath : Option String) : List Action :=
  if env.pathExists (getWorktreePath env displayNumber projectPath) then
    [Action.gitRun (projectPath.getD env.cwd)
      ("git worktree remove \""
        ++ getWorktreePath env displayNumber projectPath ++ "\" --force")]
  else []

-- ==================== Claiming ====================

/-- A JavaScript Promise object: the value it will eventually resolve to,
wrapped. Calling an async function yields such an object immediately. -/
structure Promise (α : Type) where
  resolvesTo : α
deriving DecidableEq, Repr

/-- Truthiness of a Promise in a JavaScript condition: every object is
truthy, whatever it later resolves to. -/
def Promise.jsTruthy {α : Type} (_ : Promise α) : Bool := true

/-- The resolved value and the request behaviour of the async claimTask
function: without a persisted machine id it resolves to true at once and
issues no request; with one, it resolves per the backend response, with
response.ok as the backward-compatibility fallback when the response has
no claimed field; a thrown request error resolves to false. The second
component records whether a backend request was issued at all. -/
structure ClaimResponse where
  ok : Bool
  claimed : Option Bool
  claimedBy : Option String
deriving DecidableEq, Repr

def claimTask (machineId : Option String)
    (backend : Except String ClaimResponse) : Bool × Bool :=
  match machineId with
  | none => (true, false)
  | some _ =>
    match backend with
    | Except.error _ => (false, true)
    | Except.ok r =>
      match r.claimed with
      | some true => (true, true)
      | some false => (false, true)
      | none => (r.ok, true)

/-- The value of the claimTask call as it appears inside executeTask: the
call is not awaited, so the surrounding code sees the Promise object. -/
def claimTaskPromise (env : DaemonEnv) (displayNumber : Nat) : Promise Bool :=
  Promise.mk (env.claimResolution displayNumber)

-- ==================== Task execution ====================

/-- A queued task as the daemon consumes it: the display number (absent
when the backend row carries none) and the git remote naming the project. -/
structure Task where
  displayNumber : Option Nat
  gitRemote : Option String
deriving DecidableEq, Repr

/-- The way one executeTask invocation ends. -/
inductive ExecOutcome where
  | skippedNoDisplay
  | skippedAlreadyRunning
  | skippedCapReached
  | skippedNotRegistered
  | failedPathMissing
  | droppedByClaim
  | failedWorktree
  | failedSpawn
  | started (pid : Nat)
deriving DecidableEq, Repr

/-- The tail of executeTask, from the claim gate on. The source tests the
truthiness of the value of the claimTask call, which is the un-awaited
Promise object; the path reporting running happens before the spawn. -/
def executeTaskRun (env : DaemonEnv) (st : DaemonState) (displayNumber : Nat)
    (projectPath : Option String) : ExecOutcome × DaemonState × List Action :=
  if (claimTaskPromise env displayNumber).jsTruthy = false then
    (ExecOutcome.droppedByClaim, st, [])
  else
    match createWorktree env displayNumber projectPath with
    | (none, gitActs) =>
      (ExecOutcome.failedWorktree, st,
       gitActs ++ [updateTaskStatusAct displayNumber "failed" none
         (some "Failed to create git worktree")])
    | (some _, gitActs) =>
      let runAct := updateTaskStatusAct displayNumber "running" (some "started") none
      match env.spawnResult displayNumber with
      | Except.error e =>
        (ExecOutcome.failedSpawn, st,
         gitActs ++ [runAct, updateTaskStatusAct displayNumber "failed" none (some e)])
      | Except.ok pid =>
        (ExecOutcome.started pid,
         DaemonState.mk (st.runningTasks ++ [RunningTask.mk displayNumber env.clockNow pid]),
         gitActs ++ [runAct])

/-- Model of executeTask: the in-memory gates (display number present, not
already running, concurrency cap), the registry and path checks, then the
claim gate and the worktree, report and spawn steps of executeTaskRun. -/
def executeTask (env : DaemonEnv) (st : DaemonState) (task : Task) :
    ExecOutcome × DaemonState × List Action :=
  match task.displayNumber with
  | none => (ExecOutcome.skippedNoDisplay, st, [])
  | some d =>
    if st.runningTasks.any (fun r => r.displayNumber == d) then
      (ExecOutcome.skippedAlreadyRunning, st, [])
    else if MAX_CONCURRENT_TASKS ≤ st.runningTasks.length then
      (ExecOutcome.skippedCapReached, st, [])
    else
      match task.gitRemote with
      | some remote =>
        match env.projectPathOf remote with
        | none => (ExecOutcome.skippedNotRegistered, st, [])
        | some p =>
          if env.pathExists p = false then
            (ExecOutcome.failedPathMissing, st,
             [updateTaskStatusAct d "failed" none
               (some ("Project path not found: " ++ p))])
          else executeTaskRun env st d (some p)
      | none => executeTaskRun env st d none

/-- The dispatch loop body of pollAndExecute: tasks already running by
display number are skipped; each other task goes through executeTask on
the state left by its predecessors. -/
def dispatchTasks (env : DaemonEnv) (st : DaemonState) :
    List Task → DaemonState × List ExecOutcome × List Action
  | [] => (st, [], [])
  | t :: rest =>
    if (match t.displayNumber with
        | some d => st.runningTasks.any (fun r => r.displayNumber == d)
        | none => false) then
      dispatchTasks env st rest
    else
      ((dispatchTasks env (executeTask env st t).2.1 rest).1,
       (executeTask env st t).1
         :: (dispatchTasks env (executeTask env st t).2.1 rest).2.1,
       (executeTask env st t).2.2
         ++ (dispatchTasks env (executeTask env st t).2.1 rest).2.2)

/-- Model of pollAndExecute: none means the tick skipped polling because
all slots are in use (no fetch happens); otherwise the queued tasks the
fetch returned are dispatched, at most availableSlots of them, in backend
order, and the tick ends by refreshing the status file (unless the fetch
returned nothing). -/
def pollAndExecute (env : DaemonEnv) (st : DaemonState) (queuedTasks : List Task) :
    Option (DaemonState × List ExecOutcome × List Action) :=
  if MAX_CONCURRENT_TASKS ≤ st.runningTasks.length then none
  else if queuedTasks.isEmpty then some (st, [], [])
  else
    some ((dispatchTasks env st
            (queuedTasks.take (MAX_CONCURRENT_TASKS - st.runningTasks.length))).1,
          (dispatchTasks env st
            (queuedTasks.take (MAX_CONCURRENT_TASKS - st.runningTasks.length))).2.1,
          (dispatchTasks env st
            (queuedTasks.take (MAX_CONCURRENT_TASKS - st.runningTasks.length))).2.2
            ++ updateStatusFileActs)

/-- Count of supervisors started in a list of outcomes. -/
def countStarted (outs : List ExecOutcome) : Nat :=
  (outs.filter (fun o => match o with | ExecOutcome.started _ => true | _ => false)).length

-- ==================== Completion, spawn error, timeouts, shutdown ====================

/-- Model of handleTaskCompletion: the task leaves the running set; exit
code 0 reports session_finished (PR creation is best-effort and external,
abstracted away from the trace), any other exit code reports failed with
the exit code and up to 200 characters of the stderr tail; both paths
then remove the worktree and refresh the status file. -/
def handleTaskCompletion (env : DaemonEnv) (projectPathOfTask : Nat → Option String)
    (stderrTail : String) (st : DaemonState) (displayNumber : Nat) (exitCode : Int) :
    DaemonState × List Action :=
  match st.runningTasks.find? (fun r => r.displayNumber == displayNumber) with
  | none => (st, [])
  | some _ =>
    let st' := DaemonState.mk
      (st.runningTasks.filter (fun r => r.displayNumber != displayNumber))
    let reportActs :=
      if exitCode == 0 then
        [updateTaskStatusAct displayNumber "session_finished" none none]
      else
        [updateTaskStatusAct displayNumber "failed" none
          (some ("Exit code " ++ toString exitCode ++ ": "
            ++ String.mk (stderrTail.data.take 200)))]
    (st', reportActs
      ++ cleanupWorktree env displayNumber (projectPathOfTask displayNumber)
      ++ updateStatusFileActs)

/-- Model of the handler installed with child.on error: the task leaves
the running set and failed is reported, then the status file is
refreshed. The source never calls cleanupWorktree on this path. -/
def childErrorHandler (st : DaemonState) (displayNumber : Nat) (errMsg : String) :
    DaemonState × List Action :=
  (DaemonState.mk (st.runningTasks.filter (fun r => r.displayNumber != displayNumber)),
   [updateTaskStatusAct displayNumber "failed" none (some errMsg)]
     ++ updateStatusFileActs)

/-- The timeout reason string exactly as the source builds it. -/
def timeoutReason (duration : Nat) : String :=
  "Task timed out after " ++ toString duration ++ "s (limit: "
    ++ toString (TASK_TIMEOUT_MS / 1000) ++ "s)"

/-- The actions taken for one timed-out task: SIGTERM, a 5 second wait,
SIGKILL, the failed report with the timeout reason, then worktree
cleanup. -/
def timeoutTaskActs (env : DaemonEnv) (projectPathOfTask : Nat → Option String)
    (r : RunningTask) : List Action :=
  let duration := (env.clockNow - r.startTime) / 1000
  [Action.kill r.pid "SIGTERM", Action.sleep 5000, Action.kill r.pid "SIGKILL",
   updateTaskStatusAct r.displayNumber "failed" none (some (timeoutReason duration))]
    ++ cleanupWorktree env r.displayNumber (projectPathOfTask r.displayNumber)

/-- Whether a running task has exceeded the wall-clock limit. -/
def timedOutAt (now : Nat) (r : RunningTask) : Bool :=
  TASK_TIMEOUT_MS < now - r.startTime

/-- Model of checkTimeouts: every running task whose elapsed time exceeds
TASK_TIMEOUT_MS is terminated, reported and cleaned up and leaves the
running set; the status file is refreshed when any task timed out. -/
def checkTimeouts (env : DaemonEnv) (projectPathOfTask : Nat → Option String)
    (st : DaemonState) : DaemonState × List Action :=
  (DaemonState.mk (st.runningTasks.filter (fun r => !(timedOutAt env.clockNow r))),
   ((st.runningTasks.filter (timedOutAt env.clockNow)).map
      (timeoutTaskActs env projectPathOfTask)).flatten
     ++ if (st.runningTasks.filter (timedOutAt env.clockNow)).isEmpty then []
        else updateStatusFileActs)

/-- Model of the cleanup signal handler: for each running task SIGTERM the
child, report failed with a daemon_shutdown event, remove the worktree;
then delete the PID file, write the final snapshot with running false
directly to the status file, and exit 0. -/
def cleanupTaskActs (env : DaemonEnv) (projectPathOfTask : Nat → Option String)
    (r : RunningTask) : List Action :=
  let duration := (env.clockNow - r.startTime) / 1000
  [Action.kill r.pid "SIGTERM",
   updateTaskStatusAct r.displayNumber "failed" (some "daemon_shutdown")
     (some ("Daemon shutdown after " ++ toString duration ++ "s"))]
    ++ cleanupWorktree env r.displayNumber (projectPathOfTask r.displayNumber)

def cleanup (env : DaemonEnv) (projectPathOfTask : Nat → Option String)
    (st : DaemonState) : List Action :=
  (st.runningTasks.map (cleanupTaskActs env projectPathOfTask)).flatten
    ++ [Action.fsUnlink PID_FILE,
        Action.fsWrite STATUS_FILE (some false),
        Action.exitProcess 0]

-- ==================== Stdout monitoring and stuck detection ====================

/-- From the source (checkStuckPatterns): the first stuck pattern whose
lowered form occurs in the lowered line yields the detection reason. -/
def checkStuckPatterns (line : String) : Option String :=
  STUCK_PATTERNS.findSome? (fun pattern =>
    if jsIncludes (jsToLowerCase line) (jsToLowerCase pattern) then
      some ("Detected: \x27" ++ pattern ++ "\x27")
    else none)

/-- The per-task monitoring state the stdout handler mutates: the phase
with its detail and the capped tail buffer of the last 20 lines. -/
structure MonitorState where
  phase : String
  detail : String
  buffer : List String
deriving DecidableEq, Repr

/-- One line through the stdout data handler of executeTask: blank lines
are ignored; a non-blank line enters the tail buffer (capped at 20) and,
when a stuck pattern matches, the phase becomes stuck with a reason and
the status file is refreshed (via updateTaskDetail). -/
def handleStdoutLine (displayNumber : Nat) (ms : MonitorState) (line : String) :
    MonitorState × List Action :=
  if lineIsBlank line then (ms, [])
  else
    let pushed := ms.buffer ++ [line]
    let buffer := if 20 < pushed.length then pushed.drop 1 else pushed
    match checkStuckPatterns line with
    | some reason =>
      (MonitorState.mk "stuck" ("Waiting for input: " ++ reason) buffer,
       [Action.setPhase displayNumber "stuck" ("Waiting for input: " ++ reason)]
         ++ updateStatusFileActs)
    | none => (MonitorState.mk ms.phase ms.detail buffer, [])

/-- A chunk of stdout lines through the handler, in order. -/
def handleStdoutData (displayNumber : Nat) (ms : MonitorState) :
    List String → MonitorState × List Action
  | [] => (ms, [])
  | l :: rest =>
    let step := handleStdoutLine displayNumber ms l
    let next := handleStdoutData displayNumber step.1 rest
    (next.1, step.2 ++ next.2)

/-- Recognizer for the stuck transition among the actions of the handler. -/
def isStuckTransition : Action → Bool
  | Action.setPhase _ phase _ => phase == "stuck"
  | _ => false

-- ==================== Concrete scenario data ====================

/-- A concrete healthy environment: a persisted machine id with worktree
suffix abcd1234, one registered project whose path exists, git and spawn
succeeding, every claim racing to a win. -/
def demoEnv : DaemonEnv :=
  { machineId := some "mac-abcd1234"
    projectPathOf := fun _ => some "/home/u/repo"
    pathExists := fun p => p == "/home/u/repo"
    wtAddNewOk := fun _ => true
    wtAddExistingOk := fun _ => true
    spawnResult := fun d => Except.ok (1000 + d)
    claimResolution := fun _ => true
    clockNow := 0
    cwd := "/home/u" }

/-- The same environment when another machine wins the race: the backend
answers every atomic claim with claimed false. -/
def claimLostEnv : DaemonEnv :=
  { demoEnv with claimResolution := fun _ => false }

/-- The demo environment with every path existing on disk (so worktree
directories are present at cleanup time). -/
def orphanEnv : DaemonEnv :=
  { demoEnv with pathExists := fun _ => true }

/-- The demo environment when the branch already exists: worktree add with
-b fails, the retry without -b succeeds. -/
def branchExistsEnv : DaemonEnv :=
  { demoEnv with wtAddNewOk := fun _ => false }

/-- The demo environment at one hour and fifty seconds of wall clock. -/
def lateEnv : DaemonEnv :=
  { demoEnv with clockNow := 3650000 }

/-- Seven queued tasks with display numbers 1 through 7, in backend order. -/
def demoSevenTasks : List Task :=
  [Task.mk (some 1) none, Task.mk (some 2) none, Task.mk (some 3) none,
   Task.mk (some 4) none, Task.mk (some 5) none, Task.mk (some 6) none,
   Task.mk (some 7) none]

/-- A saturated running set: five tasks running. -/
def fullState : DaemonState :=
  DaemonState.mk [RunningTask.mk 1 0 1, RunningTask.mk 2 0 2, RunningTask.mk 3 0 3,
                  RunningTask.mk 4 0 4, RunningTask.mk 5 0 5]

/-- One task, number 700, running since instant 0 in child 42. -/
def shutdownState : DaemonState :=
  DaemonState.mk [RunningTask.mk 700 0 42]

/-- One task, number 601, running since instant 0 in child 77. -/
def timeoutState : DaemonState :=
  DaemonState.mk [RunningTask.mk 601 0 77]

/-- How many tasks one outcome started (one for started, zero otherwise). -/
def startedCount1 : ExecOutcome → Nat
  | ExecOutcome.started _ => 1
  | _ => 0

/-- Recognizer for a git worktree removal in the action trace. -/
def isWorktreeRemoval : Action → Bool
  | Action.gitRun _ cmd => jsIncludes cmd "git worktree remove"
  | _ => false

/-- Recognizer for a branch deletion or forced branch move in the trace
(the daemon never issues one; stated so the theorems can say so). -/
def isBranchDeletion : Action → Bool
  | Action.gitRun _ cmd =>
      jsIncludes cmd "branch -D" || jsIncludes cmd "branch -d"
        || jsIncludes cmd "branch --delete" || jsIncludes cmd "branch -f"
  | _ => false

/-- Checker over a trace: no write ever targets the status file directly
(status snapshots must reach it only through a rename). -/
def statusWritesAtomic : List Action → Bool
  | [] => true
  | Action.fsWrite p _ :: rest => !(p == STATUS_FILE) && statusWritesAtomic rest
  | _ :: rest => statusWritesAtomic rest

-- ==================== Theorems ====================

/-- C1: the claim gate of executeTask tests the truthiness of the Promise
object returned by the un-awaited async claimTask, which is always
truthy; so even when the backend resolves the atomic claim with claimed
false (another machine won task 500), the supervisor is spawned and the
task enters the running set. The drop-on-failed-claim the claim (and the
specification) require never happens. -/
theorem executeTask_starts_supervisor_despite_lost_claim :
    (claimTaskPromise claimLostEnv 500).resolvesTo = false
  ∧ (claimTaskPromise claimLostEnv 500).jsTruthy = true
  ∧ (executeTask claimLostEnv (DaemonState.mk []) (Task.mk (some 500) (some "github.com/u/r"))).1
      = ExecOutcome.started 1500
  ∧ ((executeTask claimLostEnv (DaemonState.mk []) (Task.mk (some 500) (some "github.com/u/r"))).2.1.runningTasks.map
      RunningTask.displayNumber) = [500] := by
  decide

/-- C10: without a persisted machine id, claimTask resolves to true
without issuing any backend request; when a response arrives without a
claimed field, the claim falls back to response.ok; and executeTaskRun
never drops a task at the claim gate. -/
theorem claimTask_no_machine_id_and_ok_fallback (backend : Except String ClaimResponse)
    (r : ClaimResponse) (hr : r.claimed = none) :
    claimTask none backend = (true, false)
  ∧ claimTask (some "m1") (Except.ok r) = (r.ok, true)
  ∧ (∀ env st d pp, (executeTaskRun env st d pp).1 ≠ ExecOutcome.droppedByClaim) := by
  refine ⟨rfl, by simp [claimTask, hr], ?_⟩
  intro env st d pp
  unfold executeTaskRun
  rw [if_neg (by simp [Promise.jsTruthy])]
  rcases h : createWorktree env d pp with ⟨w, acts⟩
  cases w <;> cases hs : env.spawnResult d <;> simp [hs]

theorem claimTask_no_machine_id_and_ok_fallback_witness :
    claimTask none (Except.error "network down") = (true, false)
  ∧ claimTask (some "m1") (Except.ok (ClaimResponse.mk true none none)) = (true, true) := by
  have h := claimTask_no_machine_id_and_ok_fallback (Except.error "network down")
    (ClaimResponse.mk true none none) rfl
  exact ⟨h.1, h.2.1⟩

/-- C3 counterexample: the failure string connect: network unreachable
matches the retryable set as the claim words it, but the source pattern
is network is unreachable, so the code does not retry it; moreover a run
whose attempts all fail retryably sleeps exactly 2000 ms and 4000 ms —
the claimed third consecutive delay of 8 s can never occur under the
3-attempt limit. -/
theorem retry_policy_claim_counterexample :
    specMatchesRetryable "connect: network unreachable" = true
  ∧ isRetryableError "connect: network unreachable" = false
  ∧ (apiRequest (fun _ => (Except.error "timeout" : Except String Nat)) true).2 = [2000, 4000] := by
  decide

/-- Complete case analysis of the retrying apiRequest over the first three
attempt outcomes. -/
theorem apiRequest_cases (outcome : Nat → Except String Nat) :
    (∃ rv, outcome 1 = Except.ok rv ∧ apiRequest outcome true = (Except.ok rv, []))
  ∨ (∃ e, outcome 1 = Except.error e ∧ isRetryableError e = false
       ∧ apiRequest outcome true = (Except.error e, []))
  ∨ (∃ e1, outcome 1 = Except.error e1 ∧ isRetryableError e1 = true
       ∧ ((∃ rv, outcome 2 = Except.ok rv ∧ apiRequest outcome true = (Except.ok rv, [2000]))
        ∨ (∃ e2, outcome 2 = Except.error e2 ∧ isRetryableError e2 = false
             ∧ apiRequest outcome true = (Except.error e2, [2000]))
        ∨ (∃ e2, outcome 2 = Except.error e2 ∧ isRetryableError e2 = true
             ∧ apiRequest outcome true = (outcome 3, [2000, 4000])))) := by
  have hdef : apiRequest outcome true = apiRequestGo outcome true 3 3 1 2000 := rfl
  cases h1 : outcome 1 with
  | ok rv =>
    exact Or.inl ⟨rv, rfl, by rw [hdef]; unfold apiRequestGo; rw [h1]⟩
  | error e1 =>
    cases hre1 : isRetryableError e1 with
    | false =>
      refine Or.inr (Or.inl ⟨e1, rfl, hre1, ?_⟩)
      rw [hdef]; unfold apiRequestGo; rw [h1]; simp [hre1]
    | true =>
      refine Or.inr (Or.inr ⟨e1, rfl, hre1, ?_⟩)
      cases h2 : outcome 2 with
      | ok rv =>
        refine Or.inl ⟨rv, rfl, ?_⟩
        rw [hdef]; unfold apiRequestGo; rw [h1]; simp [hre1]
        unfold apiRequestGo; rw [h2]; simp
      | error e2 =>
        cases hre2 : isRetryableError e2 with
        | false =>
          refine Or.inr (Or.inl ⟨e2, rfl, hre2, ?_⟩)
          rw [hdef]; unfold apiRequestGo; rw [h1]; simp [hre1]
          unfold apiRequestGo; rw [h2]; simp [hre2]
        | true =>
          refine Or.inr (Or.inr ⟨e2, rfl, hre2, ?_⟩)
          rw [hdef]; unfold apiRequestGo; rw [h1]; simp [hre1]
          unfold apiRequestGo; rw [h2]; simp [hre2]
          unfold apiRequestGo
          cases h3 : outcome 3 <;>
            simp [h3] <;> norm_num [RETRY_BACKOFF_FACTOR, RETRY_MAX_DELAY]

/-- C3 (amended): a backend request is retried exactly when the thrown
failure matches the source retryable pattern set (whose fourth pattern is
network is unreachable); at most three attempts are made, so at most two
backoff delays occur, 2000 ms then 4000 ms, doubling toward a 30 s cap
that the 3-attempt limit keeps out of reach; a non-retryable first
failure is reported to the caller with no retry and no delay. -/
theorem apiRequest_retry_policy (outcome : Nat → Except String Nat) :
    ((apiRequest outcome true).2 = [] ∨ (apiRequest outcome true).2 = [2000]
       ∨ (apiRequest outcome true).2 = [2000, 4000])
  ∧ (∀ k, k < (apiRequest outcome true).2.length →
       ∃ e, outcome (k + 1) = Except.error e ∧ isRetryableError e = true)
  ∧ (∀ e, outcome 1 = Except.error e → isRetryableError e = false →
       apiRequest outcome true = (Except.error e, []))
  ∧ (∀ e, outcome 1 = Except.error e → isRetryableError e = true →
       (apiRequest outcome true).2 ≠ []) := by
  rcases apiRequest_cases outcome with ⟨rv, h1, hA⟩ | ⟨e, h1, hre, hA⟩ |
    ⟨e1, h1, hre1, ⟨rv, h2, hA⟩ | ⟨e2, h2, hre2, hA⟩ | ⟨e2, h2, hre2, hA⟩⟩
  · refine ⟨Or.inl (by rw [hA]), ?_, ?_, ?_⟩
    · intro k hk; rw [hA] at hk; simp at hk
    · intro e he; rw [h1] at he; cases he
    · intro e he; rw [h1] at he; cases he
  · refine ⟨Or.inl (by rw [hA]), ?_, ?_, ?_⟩
    · intro k hk; rw [hA] at hk; simp at hk
    · intro e2 he hre2
      rw [h1] at he; injection he with hee; subst hee
      exact hA
    · intro e2 he hre2
      rw [h1] at he; injection he with hee; subst hee
      simp [hre] at hre2
  · refine ⟨Or.inr (Or.inl (by rw [hA])), ?_, ?_, ?_⟩
    · intro k hk
      rw [hA] at hk; simp at hk; subst hk
      exact ⟨e1, h1, hre1⟩
    · intro e he hre
      rw [h1] at he; injection he with hee; subst hee
      simp [hre1] at hre
    · intro e he _; rw [hA]; simp
  · refine ⟨Or.inr (Or.inl (by rw [hA])), ?_, ?_, ?_⟩
    · intro k hk
      rw [hA] at hk; simp at hk; subst hk
      exact ⟨e1, h1, hre1⟩
    · intro e he hre
      rw [h1] at he; injection he with hee; subst hee
      simp [hre1] at hre
    · intro e he _; rw [hA]; simp
  · refine ⟨Or.inr (Or.inr (by rw [hA])), ?_, ?_, ?_⟩
    · intro k hk
      rw [hA] at hk; simp at hk
      match k, hk with
      | 0, _ => exact ⟨e1, h1, hre1⟩
      | 1, _ => exact ⟨e2, h2, hre2⟩
    · intro e he hre
      rw [h1] at he; injection he with hee; subst hee
      simp [hre1] at hre
    · intro e he _; rw [hA]; simp

theorem apiRequest_retry_policy_witness :
    apiRequest (fun _ => (Except.error "invalid api key" : Except String Nat)) true
      = (Except.error "invalid api key", []) :=
  (apiRequest_retry_policy (fun _ => Except.error "invalid api key")).2.2.1
    "invalid api key" rfl (by decide)

/-- Concatenation of per-element action lists keeps each contributing
block contiguous: membership of the element locates its block. -/
theorem flatten_map_block {α β : Type} (f : α → List β) (l : List α) (x : α)
    (hx : x ∈ l) : ∃ p q, (l.map f).flatten = p ++ f x ++ q := by
  induction l with
  | nil => cases hx
  | cons y ys ih =>
    rcases List.mem_cons.mp hx with h | h
    · subst h; exact ⟨[], (ys.map f).flatten, by simp⟩
    · rcases ih h with ⟨p, q, hpq⟩
      exact ⟨f y ++ p, q, by simp [hpq]⟩

/-- C2: on SIGTERM or SIGINT, for every task in the running set the
cleanup handler sends SIGTERM to its child, reports failed with a
daemon_shutdown event, and removes its worktree directory when it exists;
the trace then ends by deleting the PID file, writing the final snapshot
with running false, and exiting with code 0. -/
theorem cleanup_graceful_shutdown (env : DaemonEnv) (pp : Nat → Option String)
    (st : DaemonState) (r : RunningTask) (hr : r ∈ st.runningTasks) :
    Action.kill r.pid "SIGTERM" ∈ cleanup env pp st
  ∧ Action.statusUpdate r.displayNumber "failed" (some "daemon_shutdown")
      (some ("Daemon shutdown after "
        ++ toString ((env.clockNow - r.startTime) / 1000) ++ "s"))
      ∈ cleanup env pp st
  ∧ (env.pathExists (getWorktreePath env r.displayNumber (pp r.displayNumber)) = true →
      Action.gitRun ((pp r.displayNumber).getD env.cwd)
        ("git worktree remove \""
          ++ getWorktreePath env r.displayNumber (pp r.displayNumber) ++ "\" --force")
        ∈ cleanup env pp st)
  ∧ (∃ body, cleanup env pp st
      = body ++ [Action.fsUnlink PID_FILE, Action.fsWrite STATUS_FILE (some false),
                 Action.exitProcess 0]) := by
  have hmem : ∀ a, a ∈ cleanupTaskActs env pp r → a ∈ cleanup env pp st := by
    intro a ha
    unfold cleanup
    refine List.mem_append.mpr (Or.inl ?_)
    exact List.mem_flatten.mpr ⟨cleanupTaskActs env pp r, List.mem_map_of_mem _ hr, ha⟩
  refine ⟨hmem _ ?_, hmem _ ?_, fun hex => hmem _ ?_, ⟨_, rfl⟩⟩
  · simp [cleanupTaskActs]
  · simp [cleanupTaskActs, updateTaskStatusAct]
  · simp [cleanupTaskActs, cleanupWorktree, hex]

theorem cleanup_graceful_shutdown_witness :
    Action.kill 42 "SIGTERM" ∈ cleanup lateEnv (fun _ => some "/home/u/repo") shutdownState
  ∧ Action.statusUpdate 700 "failed" (some "daemon_shutdown")
      (some "Daemon shutdown after 3650s")
      ∈ cleanup lateEnv (fun _ => some "/home/u/repo") shutdownState := by
  have h := cleanup_graceful_shutdown lateEnv (fun _ => some "/home/u/repo")
    shutdownState (RunningTask.mk 700 0 42) (by decide)
  refine ⟨h.1, ?_⟩
  have h2 := h.2.1
  have : ("Daemon shutdown after "
      ++ toString ((lateEnv.clockNow - 0) / 1000) ++ "s") = "Daemon shutdown after 3650s" := by
    decide
  rwa [this] at h2

/-- C4: every running task whose elapsed wall-clock time exceeds the one
hour limit is removed from the running set by checkTimeouts; the trace
contains, consecutively, SIGTERM to its child, a 5000 ms wait, SIGKILL,
and the failed report whose reason is exactly the string Task timed out
after Ns (limit: 3600s), with N the elapsed seconds. -/
theorem checkTimeouts_kills_and_reports (env : DaemonEnv) (pp : Nat → Option String)
    (st : DaemonState) (r : RunningTask) (hr : r ∈ st.runningTasks)
    (hto : TASK_TIMEOUT_MS < env.clockNow - r.startTime) :
    r ∉ (checkTimeouts env pp st).1.runningTasks
  ∧ (∃ p q, (checkTimeouts env pp st).2
      = p ++ [Action.kill r.pid "SIGTERM", Action.sleep 5000, Action.kill r.pid "SIGKILL",
              Action.statusUpdate r.displayNumber "failed" (some "failed")
                (some (timeoutReason ((env.clockNow - r.startTime) / 1000)))] ++ q)
  ∧ timeoutReason ((env.clockNow - r.startTime) / 1000)
      = "Task timed out after " ++ toString ((env.clockNow - r.startTime) / 1000)
          ++ "s (limit: 3600s)" := by
  have htob : timedOutAt env.clockNow r = true := by
    simp [timedOutAt, hto]
  refine ⟨?_, ?_, ?_⟩
  · intro hmem
    have := (List.mem_filter.mp hmem).2
    simp [htob] at this
  · have hrf : r ∈ st.runningTasks.filter (timedOutAt env.clockNow) :=
      List.mem_filter.mpr ⟨hr, htob⟩
    rcases flatten_map_block (timeoutTaskActs env pp) _ r hrf with ⟨p, q, hpq⟩
    refine ⟨p, cleanupWorktree env r.displayNumber (pp r.displayNumber)
      ++ q ++ (if (st.runningTasks.filter (timedOutAt env.clockNow)).isEmpty
               then [] else updateStatusFileActs), ?_⟩
    show (checkTimeouts env pp st).2 = _
    unfold checkTimeouts
    rw [hpq]
    simp [timeoutTaskActs, updateTaskStatusAct, autoEventType]
  · unfold timeoutReason TASK_TIMEOUT_MS
    rw [String.append_assoc, String.append_assoc]
    congr 1

theorem checkTimeouts_kills_and_reports_witness :
    Action.statusUpdate 601 "failed" (some "failed")
      (some "Task timed out after 3650s (limit: 3600s)")
      ∈ (checkTimeouts lateEnv (fun _ => some "/home/u/repo") timeoutState).2 := by
  have h := checkTimeouts_kills_and_reports lateEnv (fun _ => some "/home/u/repo")
    timeoutState (RunningTask.mk 601 0 77) (by decide) (by decide)
  rcases h.2.1 with ⟨p, q, hpq⟩
  rw [hpq]
  have : Action.statusUpdate 601 "failed" (some "failed")
      (some "Task timed out after 3650s (limit: 3600s)")
    = Action.statusUpdate 601 "failed" (some "failed")
        (some (timeoutReason ((lateEnv.clockNow - 0) / 1000))) := by decide
  rw [this]
  simp

/-- C5: the spawn-error path breaks the no-orphan-worktrees invariant: when
the spawned child emits an error event (for instance the agent binary is
absent), the task leaves the running set and failed is reported, but the
trace contains no git worktree removal, so the worktree directory
survives; by contrast, the normal completion path removes the worktree,
and no path ever deletes or force-moves the branch. -/
theorem childError_orphans_worktree :
    (childErrorHandler (DaemonState.mk [RunningTask.mk 427 0 42]) 427
      "spawn claude ENOENT").1.runningTasks = []
  ∧ ((childErrorHandler (DaemonState.mk [RunningTask.mk 427 0 42]) 427
      "spawn claude ENOENT").2.all (fun a => !(isWorktreeRemoval a))) = true
  ∧ ((handleTaskCompletion orphanEnv (fun _ => some "/home/u/repo") ""
      (DaemonState.mk [RunningTask.mk 427 0 42]) 427 0).2.any isWorktreeRemoval) = true
  ∧ ((handleTaskCompletion orphanEnv (fun _ => some "/home/u/repo") ""
      (DaemonState.mk [RunningTask.mk 427 0 42]) 427 0).2.all
        (fun a => !(isBranchDeletion a))) = true
  ∧ ((handleTaskCompletion orphanEnv (fun _ => some "/home/u/repo") "boom"
      (DaemonState.mk [RunningTask.mk 427 0 42]) 427 1).2.any isWorktreeRemoval) = true := by
  decide

/-- The state effect of the executeTask tail: a started outcome appends
exactly one running record, every other outcome leaves the state as is. -/
theorem executeTaskRun_length (env : DaemonEnv) (st : DaemonState) (d : Nat)
    (pp : Option String) :
    (executeTaskRun env st d pp).2.1.runningTasks.length
      = st.runningTasks.length + startedCount1 (executeTaskRun env st d pp).1 := by
  unfold executeTaskRun
  rw [if_neg (by simp [Promise.jsTruthy])]
  rcases h : createWorktree env d pp with ⟨w, acts⟩
  cases w with
  | none => simp [startedCount1]
  | some wt => cases hs : env.spawnResult d <;> simp [hs, startedCount1]

/-- executeTask preserves the concurrency bound, and its new state length
is the old one plus the number of starts (zero or one). -/
theorem executeTask_length (env : DaemonEnv) (st : DaemonState) (t : Task)
    (h5 : st.runningTasks.length ≤ MAX_CONCURRENT_TASKS) :
    (executeTask env st t).2.1.runningTasks.length
      = st.runningTasks.length + startedCount1 (executeTask env st t).1
  ∧ (executeTask env st t).2.1.runningTasks.length ≤ MAX_CONCURRENT_TASKS := by
  have hrun : ∀ d pp, ¬ MAX_CONCURRENT_TASKS ≤ st.runningTasks.length →
      (executeTaskRun env st d pp).2.1.runningTasks.length
        = st.runningTasks.length + startedCount1 (executeTaskRun env st d pp).1
    ∧ (executeTaskRun env st d pp).2.1.runningTasks.length ≤ MAX_CONCURRENT_TASKS := by
    intro d pp hlt
    have h := executeTaskRun_length env st d pp
    refine ⟨h, ?_⟩
    rw [h]
    have : startedCount1 (executeTaskRun env st d pp).1 ≤ 1 := by
      cases (executeTaskRun env st d pp).1 <;> simp [startedCount1]
    omega
  unfold executeTask
  cases hd : t.displayNumber with
  | none => simp [startedCount1, h5]
  | some d =>
    dsimp only
    by_cases hAny : (st.runningTasks.any fun r => r.displayNumber == d) = true
    · simp [hAny, startedCount1, h5]
    · rw [if_neg hAny]
      by_cases hCap : MAX_CONCURRENT_TASKS ≤ st.runningTasks.length
      · rw [if_pos hCap]; simp [startedCount1, h5]
      · rw [if_neg hCap]
        cases hg : t.gitRemote with
        | none => exact hrun d none hCap
        | some remote =>
          dsimp only
          cases hp : env.projectPathOf remote with
          | none => simp [hp, startedCount1, h5]
          | some p =>
            dsimp only
            by_cases hpe : env.pathExists p = false
            · rw [if_pos hpe]; simp [startedCount1, h5]
            · rw [if_neg hpe]; exact hrun d (some p) hCap

/-- The number of starts in a cons of outcomes. -/
theorem countStarted_cons (o : ExecOutcome) (l : List ExecOutcome) :
    countStarted (o :: l) = startedCount1 o + countStarted l := by
  cases o <;> simp [countStarted, startedCount1, Nat.add_comm]

/-- The dispatch loop: the final state length is the initial one plus the
number of started outcomes, the bound of 5 is preserved, and at most one
outcome is recorded per dispatched task. -/
theorem dispatchTasks_length (env : DaemonEnv) (ts : List Task) (st : DaemonState)
    (h5 : st.runningTasks.length ≤ MAX_CONCURRENT_TASKS) :
    (dispatchTasks env st ts).1.runningTasks.length
      = st.runningTasks.length + countStarted (dispatchTasks env st ts).2.1
  ∧ (dispatchTasks env st ts).1.runningTasks.length ≤ MAX_CONCURRENT_TASKS
  ∧ (dispatchTasks env st ts).2.1.length ≤ ts.length := by
  induction ts generalizing st with
  | nil => simpa [dispatchTasks, countStarted]
  | cons t rest ih =>
    unfold dispatchTasks
    split
    · obtain ⟨i1, i2, i3⟩ := ih st h5
      exact ⟨i1, i2, Nat.le_succ_of_le i3⟩
    · obtain ⟨h1, h2⟩ := executeTask_length env st t h5
      obtain ⟨i1, i2, i3⟩ := ih (executeTask env st t).2.1 h2
      refine ⟨?_, i2, by simpa using i3⟩
      simp only [countStarted_cons]
      omega

/-- C6: the running set never exceeds the cap of 5. A saturated tick skips
polling entirely (no fetch is even issued); an unsaturated tick feeds at
most cap minus running of the fetched tasks, in backend order, through
the runner, and the state stays within the cap with at most that many
starts. Concretely, with nothing running and seven well-formed queued
tasks, exactly the first five start, in backend order. -/
theorem pollAndExecute_concurrency_cap (env : DaemonEnv) (st : DaemonState)
    (tasks : List Task) (h5 : st.runningTasks.length ≤ MAX_CONCURRENT_TASKS) :
    (MAX_CONCURRENT_TASKS ≤ st.runningTasks.length → pollAndExecute env st tasks = none)
  ∧ (∀ st' outs acts, pollAndExecute env st tasks = some (st', outs, acts) →
      st'.runningTasks.length ≤ MAX_CONCURRENT_TASKS
    ∧ countStarted outs ≤ MAX_CONCURRENT_TASKS - st.runningTasks.length
    ∧ outs.length ≤ (tasks.take (MAX_CONCURRENT_TASKS - st.runningTasks.length)).length)
  ∧ ((pollAndExecute demoEnv (DaemonState.mk []) demoSevenTasks).map
      (fun res => (res.1.runningTasks.map RunningTask.displayNumber, countStarted res.2.1)))
      = some ([1, 2, 3, 4, 5], 5) := by
  refine ⟨?_, ?_, by decide⟩
  · intro hsat
    unfold pollAndExecute
    rw [if_pos hsat]
  · intro st' outs acts h
    unfold pollAndExecute at h
    split at h
    · cases h
    · split at h
      · simp only [Option.some.injEq, Prod.mk.injEq] at h
        obtain ⟨rfl, rfl, rfl⟩ := h
        exact ⟨h5, by simp [countStarted], by simp⟩
      · simp only [Option.some.injEq, Prod.mk.injEq] at h
        obtain ⟨rfl, rfl, rfl⟩ := h
        obtain ⟨e1, e2, e3⟩ := dispatchTasks_length env
          (tasks.take (MAX_CONCURRENT_TASKS - st.runningTasks.length)) st h5
        refine ⟨e2, by omega, e3⟩

theorem pollAndExecute_concurrency_cap_witness :
    pollAndExecute demoEnv fullState demoSevenTasks = none :=
  (pollAndExecute_concurrency_cap demoEnv fullState demoSevenTasks (by decide)).1
    (by decide)

/-- The no-direct-status-write checker distributes over concatenation. -/
theorem statusWritesAtomic_append (a b : List Action) :
    statusWritesAtomic (a ++ b) = (statusWritesAtomic a && statusWritesAtomic b) := by
  induction a with
  | nil => simp [statusWritesAtomic]
  | cons x rest ih =>
    cases x <;> simp [statusWritesAtomic, ih, Bool.and_assoc]

/-- Worktree cleanup issues only git commands, never a status-file write. -/
theorem statusWritesAtomic_cleanupWorktree (env : DaemonEnv) (d : Nat)
    (pp : Option String) : statusWritesAtomic (cleanupWorktree env d pp) = true := by
  unfold cleanupWorktree
  split <;> simp [statusWritesAtomic]

/-- The two file names updateStatusFileActs touches are distinct. -/
theorem tmp_ne_status : ((STATUS_FILE ++ ".tmp") == STATUS_FILE) = false := by decide

/-- The periodic snapshot trace never writes the status file directly. -/
theorem statusWritesAtomic_update : statusWritesAtomic updateStatusFileActs = true := by
  decide

/-- A flattened map of clean per-element traces is clean. -/
theorem statusWritesAtomic_flatten {α : Type} (f : α → List Action) (l : List α)
    (hf : ∀ x ∈ l, statusWritesAtomic (f x) = true) :
    statusWritesAtomic ((l.map f).flatten) = true := by
  induction l with
  | nil => rfl
  | cons x rest ih =>
    simp only [List.map_cons, List.flatten_cons, statusWritesAtomic_append]
    rw [hf x (by simp), ih (fun y hy => hf y (by simp [hy]))]
    rfl

/-- The per-timeout trace never writes the status file directly. -/
theorem statusWritesAtomic_timeoutTaskActs (env : DaemonEnv)
    (pp : Nat → Option String) (r : RunningTask) :
    statusWritesAtomic (timeoutTaskActs env pp r) = true := by
  unfold timeoutTaskActs
  simp [statusWritesAtomic_append, statusWritesAtomic, statusWritesAtomic_cleanupWorktree]

/-- C7 counterexample: the final snapshot written during shutdown is a
direct write of the status file — the cleanup trace holds a plain write
of the status file and no rename onto it — so not every status-file
write is performed as write-to-temp-then-rename. -/
theorem cleanup_final_write_not_temp_rename :
    Action.fsWrite STATUS_FILE (some false)
      ∈ cleanup demoEnv (fun _ => none) (DaemonState.mk [])
  ∧ ((cleanup demoEnv (fun _ => none) (DaemonState.mk [])).all
      (fun a => match a with
        | Action.fsRename _ dst => !(dst == STATUS_FILE)
        | _ => true)) = true := by
  decide

/-- C7 (amended): every periodic status snapshot (updateStatusFile, as it
appears in the completion and timeout traces) goes through
write-to-temp-then-rename, never writing the status file directly, so
readers of those writes cannot observe partial JSON; the single
exception is the final running-false snapshot, which cleanup writes
directly to the status file. -/
theorem status_snapshot_write_discipline (env : DaemonEnv) (pp : Nat → Option String)
    (st : DaemonState) (d : Nat) (ec : Int) (stderrTail : String) :
    statusWritesAtomic updateStatusFileActs = true
  ∧ statusWritesAtomic (handleTaskCompletion env pp stderrTail st d ec).2 = true
  ∧ statusWritesAtomic (checkTimeouts env pp st).2 = true
  ∧ statusWritesAtomic (cleanup env pp st) = false := by
  refine ⟨by decide, ?_, ?_, ?_⟩
  · unfold handleTaskCompletion
    cases hf : st.runningTasks.find? (fun r => r.displayNumber == d) with
    | none => rfl
    | some r =>
      dsimp only
      rw [statusWritesAtomic_append, statusWritesAtomic_append]
      split <;>
        simp [statusWritesAtomic, statusWritesAtomic_cleanupWorktree,
          statusWritesAtomic_update, tmp_ne_status]
  · unfold checkTimeouts
    dsimp only
    rw [statusWritesAtomic_append]
    rw [statusWritesAtomic_flatten (timeoutTaskActs env pp) _
      (fun r _ => statusWritesAtomic_timeoutTaskActs env pp r)]
    split
    · rfl
    · simp [statusWritesAtomic_update]
  · unfold cleanup
    rw [statusWritesAtomic_append]
    have h : statusWritesAtomic
        [Action.fsUnlink PID_FILE, Action.fsWrite STATUS_FILE (some false),
         Action.exitProcess 0] = false := by decide
    rw [h, Bool.and_false]

/-- C8 counterexample: two identical matching stdout lines each trigger
the stuck transition; the handler performs no de-duplication of
subsequent hits. -/
theorem stuck_detection_not_deduplicated :
    (((handleStdoutData 427 (MonitorState.mk "executing" "Running Claude..." [])
        ["Do you want to proceed? y/n", "Do you want to proceed? y/n"]).2.filter
          isStuckTransition).length) = 2 := by
  decide

/-- C8 (amended): every non-blank stdout line is scanned case-insensitively
against the fixed stuck phrases; each matching line — the first and every
subsequent one — triggers the transition to phase stuck with a detection
reason (repeated matches are not de-duplicated), and once a line has
matched, the phase is stuck from then on. -/
theorem handleStdout_stuck_detection (d : Nat) (ms : MonitorState) (lines : List String) :
    ((handleStdoutData d ms lines).2.filter isStuckTransition).length
      = (lines.filter (fun l => !(lineIsBlank l) && (checkStuckPatterns l).isSome)).length
  ∧ (handleStdoutData d ms lines).1.phase
      = (if lines.any (fun l => !(lineIsBlank l) && (checkStuckPatterns l).isSome)
         then "stuck" else ms.phase)
  ∧ checkStuckPatterns "WAITING FOR PERMISSION from the user"
      = some "Detected: \x27waiting for permission\x27" := by
  refine ⟨?_, ?_, by decide⟩
  · induction lines generalizing ms with
    | nil => rfl
    | cons l rest ih =>
      unfold handleStdoutData handleStdoutLine
      by_cases hb : lineIsBlank l = true
      · simp [hb, ih ms]
      · rw [if_neg hb]
        cases hm : checkStuckPatterns l with
        | none => simp [hb, hm, ih]
        | some reason =>
          dsimp only
          simp [hb, hm, List.filter_append, isStuckTransition,
            updateStatusFileActs, statusWritesAtomic, ih]
  · induction lines generalizing ms with
    | nil => simp [handleStdoutData]
    | cons l rest ih =>
      unfold handleStdoutData handleStdoutLine
      by_cases hb : lineIsBlank l = true
      · simp [hb, ih ms]
      · rw [if_neg hb]
        cases hm : checkStuckPatterns l with
        | none => simp [hb, hm, ih]
        | some reason =>
          dsimp only
          rw [ih]
          simp [hb, hm]

/-- C9: worktree creation is idempotent in the sense the claim needs: an
existing worktree directory is returned as is with no git command run;
otherwise a fresh branch is attempted with worktree add -b, and when that
fails (the branch already exists) the identical path is re-added onto the
existing branch with a plain worktree add — the same branch name, no
branch reset, nothing rewriting its history; when both attempts fail,
createWorktree returns none, upon which the runner reports failed and
aborts the run without touching the running set. -/
theorem createWorktree_idempotent (env : DaemonEnv) (d : Nat) (pp : Option String) :
    (env.pathExists (getWorktreePath env d pp) = true →
       createWorktree env d pp = (some (getWorktreePath env d pp), []))
  ∧ (env.pathExists (getWorktreePath env d pp) = false → env.wtAddNewOk d = true →
       createWorktree env d pp
         = (some (getWorktreePath env d pp),
            [Action.gitRun (pp.getD env.cwd)
              ("git worktree add \"" ++ getWorktreePath env d pp ++ "\" -b "
                ++ ("push-" ++ toString d ++ "-" ++ getWorktreeSuffix env.machineId))]))
  ∧ (env.pathExists (getWorktreePath env d pp) = false → env.wtAddNewOk d = false →
       env.wtAddExistingOk d = true →
       createWorktree env d pp
         = (some (getWorktreePath env d pp),
            [Action.gitRun (pp.getD env.cwd)
              ("git worktree add \"" ++ getWorktreePath env d pp ++ "\" -b "
                ++ ("push-" ++ toString d ++ "-" ++ getWorktreeSuffix env.machineId)),
             Action.gitRun (pp.getD env.cwd)
              ("git worktree add \"" ++ getWorktreePath env d pp ++ "\" "
                ++ ("push-" ++ toString d ++ "-" ++ getWorktreeSuffix env.machineId))]))
  ∧ (env.pathExists (getWorktreePath env d pp) = false → env.wtAddNewOk d = false →
       env.wtAddExistingOk d = false →
       (createWorktree env d pp).1 = none
     ∧ ∀ st, (executeTaskRun env st d pp).1 = ExecOutcome.failedWorktree
       ∧ (executeTaskRun env st d pp).2.1 = st
       ∧ updateTaskStatusAct d "failed" none (some "Failed to create git worktree")
           ∈ (executeTaskRun env st d pp).2.2) := by
  refine ⟨?_, ?_, ?_, ?_⟩
  · intro hex
    unfold createWorktree
    rw [if_pos hex]
  · intro hex hnew
    unfold createWorktree
    rw [if_neg (by simp [hex]), if_pos hnew]
  · intro hex hnew hold
    unfold createWorktree
    rw [if_neg (by simp [hex]), if_neg (by simp [hnew]), if_pos hold]
  · intro hex hnew hold
    have hcw : createWorktree env d pp
        = (none,
           [Action.gitRun (pp.getD env.cwd)
             ("git worktree add \"" ++ getWorktreePath env d pp ++ "\" -b "
               ++ ("push-" ++ toString d ++ "-" ++ getWorktreeSuffix env.machineId)),
            Action.gitRun (pp.getD env.cwd)
             ("git worktree add \"" ++ getWorktreePath env d pp ++ "\" "
               ++ ("push-" ++ toString d ++ "-" ++ getWorktreeSuffix env.machineId))]) := by
      unfold createWorktree
      rw [if_neg (by simp [hex]), if_neg (by simp [hnew]), if_neg (by simp [hold])]
    refine ⟨by rw [hcw], ?_⟩
    intro st
    unfold executeTaskRun
    rw [if_neg (by simp [Promise.jsTruthy]), hcw]
    exact ⟨rfl, rfl, by simp⟩

theorem createWorktree_idempotent_witness :
    createWorktree branchExistsEnv 427 (some "/home/u/repo")
      = (some "/home/u/push-427-abcd1234",
         [Action.gitRun "/home/u/repo"
            "git worktree add \"/home/u/push-427-abcd1234\" -b push-427-abcd1234",
          Action.gitRun "/home/u/repo"
            "git worktree add \"/home/u/push-427-abcd1234\" push-427-abcd1234"]) := by
  have h := (createWorktree_idempotent branchExistsEnv 427 (some "/home/u/repo")).2.2.1
    (by decide) (by decide) (by decide)
  exact h.trans (by decide)

end PushDaemon
